import Mathlib

/-!
Verification of the analytics aggregation layer of the `dashboard` repository
(`dashboard.py`).  The Python functions are shallowly embedded as executable
Lean definitions over a record model of the Firestore documents:

* strings are Lean `String`s, manipulated through their character lists;
* Python floats/ints that only ever carry exact data are modelled as `ℚ`;
* a Python `dict.get(key, default)` with a possibly-absent key is modelled by
  an `Option` field; values that may be non-numeric are modelled by `FieldVal`;
* Python exceptions (the `TypeError` that `defaultdict.__iadd__` raises on a
  non-numeric operand) are modelled by `Except Unit`;
* the impure `datetime.now()` read inside `filter_conversations` is passed in
  as an explicit `now : ℚ` (epoch seconds); a precise calendar day is passed
  as its `[start-of-day, end-of-day]` epoch-second bounds, which is what the
  `datetime.combine`/`fromtimestamp` comparisons in the source amount to.
-/

set_option maxRecDepth 8000
set_option maxHeartbeats 1000000

/-! ### Python string primitives -/

/-- Whitespace characters removed by Python `str.strip()`. -/
def pyIsSpace (c : Char) : Bool :=
  c == ' ' || c == '\t' || c == '\n' || c == '\r' || c == '\x0b' || c == '\x0c'

def pyStripList (l : List Char) : List Char :=
  ((l.dropWhile pyIsSpace).reverse.dropWhile pyIsSpace).reverse

/-- Python `s.strip()`. -/
def pyStrip (s : String) : String := ⟨pyStripList s.data⟩

/-- Python `s.lower()` (ASCII case folding). -/
def pyLower (s : String) : String := ⟨s.data.map Char.toLower⟩

/-- Python `s.startswith(p)`. -/
def strStarts (s p : String) : Bool := p.data.isPrefixOf s.data

/-- Python `s.endswith(p)`. -/
def strEnds (s p : String) : Bool := p.data.isSuffixOf s.data

/-- Python `c in s` for a single character. -/
def strHasChar (s : String) (c : Char) : Bool := s.data.contains c

/-- Python `sub in s` (substring containment). -/
def strSub (s sub : String) : Bool := s.data.tails.any (fun t => sub.data.isPrefixOf t)

/-- Python `s[:-n]`. -/
def strDropRight (s : String) (n : Nat) : String := ⟨s.data.take (s.data.length - n)⟩

/-- Python `s[n:]`. -/
def strDropLeft (s : String) (n : Nat) : String := ⟨s.data.drop n⟩

/-- The fully-anchored wildcard matching performed by
`re.match('^' + re.escape(pattern).replace('\\*', '.*') + '$', email)`:
`*` matches any character sequence, every other character is literal. -/
def globMatch : List Char → List Char → Bool
  | [], [] => true
  | [], _ :: _ => false
  | '*' :: ps, [] => globMatch ps []
  | '*' :: ps, e :: es => globMatch ps (e :: es) || globMatch ('*' :: ps) es
  | _ :: _, [] => false
  | p :: ps, e :: es => (p == e) && globMatch ps es
termination_by ps es => (es.length, ps.length)

/-! ### Data model (conversation/message records) -/

/-- A dynamically-typed cost field (`prix` / `tokens`): either a number
(Python `int`/`float`) or some non-numeric value. -/
inductive FieldVal
  | num (q : ℚ)
  | other
deriving DecidableEq

/-- The `metadata.cout` value: a mapping (with possibly-absent `prix` and
`tokens` keys) or a non-mapping value. -/
inductive CoutVal
  | dict (prix : Option FieldVal) (tokens : Option FieldVal)
  | nonDict
deriving DecidableEq

/-- The nested `metadata.user_info` mapping (modelled as always a mapping;
an absent key is `none`). -/
structure UserInfo where
  user_id : Option Int
  user_email : Option String
  email : Option String
deriving DecidableEq

/-- Per-message `metadata` mapping (only the keys the aggregation layer reads). -/
structure MsgMetadata where
  user_id : Option Int
  user_info : Option UserInfo
  email : Option String
  cout : Option CoutVal
deriving DecidableEq

/-- A message document.  `question` is `msg.get('question', '')`;
`timestamp`/`modele`/`docs`/`feedback` are `none` when the key is absent.
`docs` is modelled by its length (`none` for absent/null). -/
structure Message where
  question : String
  timestamp : Option ℚ
  modele : Option String
  docs : Option Nat
  feedback : Option String
  metadata : MsgMetadata
deriving DecidableEq

/-- A conversation document: id plus the timestamp-sorted message list.
(The conversation-level `metadata` mapping is only copied verbatim into
outputs by the source and is not modelled.) -/
structure Conversation where
  id : String
  messages : List Message
deriving DecidableEq

/-- `msg.get('question', '').strip()` is non-empty: a "valid" question. -/
def isValidQuestion (m : Message) : Bool := pyStrip m.question != ""

/-- `bool(msg.get('docs'))`: truthy iff a non-empty list. -/
def docsTruthy (m : Message) : Bool :=
  match m.docs with
  | some n => n > 0
  | none => false

/-- Number of valid-question messages of a conversation. -/
def validCount (c : Conversation) : Nat := (c.messages.filter isValidQuestion).length

/-- All messages of a conversation list, in order. -/
def allMsgs (convs : List Conversation) : List Message := (convs.map (·.messages)).flatten

/-! ### `match_email_pattern` (dashboard.py lines 290-352) -/

def match_email_pattern (email pattern : String) : Bool :=
  if pattern == "" then true
  else if email == "" then false
  else
    let p := pyLower (pyStrip pattern)
    let e := pyLower (pyStrip email)
    if p == e then true
    else if strStarts p "@" then strEnds e p
    else if strEnds p "@*" then strStarts e (strDropRight p 2 ++ "@")
    else if strStarts p "*@" then strEnds e (strDropLeft p 1)
    else if strHasChar p '*' then globMatch p.data e.data
    else strSub e p

/-! ### `filter_conversations` (dashboard.py lines 354-505) -/

/-- The `date_filter` sidebar choice ("Toutes" / "7 derniers jours" / "30
derniers jours" / "90 derniers jours"). -/
inductive DateFilter
  | toutes | jours7 | jours30 | jours90
deriving DecidableEq

/-- The `user_filter` sidebar choice ("Tous les utilisateurs" /
"Admin (ID: 0)" / "Utilisateur (ID: 1)" / "Email spécifique"). -/
inductive UserFilter
  | tousLesUtilisateurs | adminId0 | utilisateurId1 | emailSpecifique
deriving DecidableEq

/-- `msg.get('metadata', {}).get('user_id', 1)` — the role id the source uses
both in `filter_conversations` (line 424) and in
`analyze_questions_by_user_type` (line 530). -/
def msgUserId (m : Message) : Int := m.metadata.user_id.getD 1

/-- The email fallback chain of lines 433-445: `metadata.user_info.user_email`,
else `metadata.email`, else `metadata.user_info.email`; the result is
stripped and lower-cased when non-empty. -/
def resolveMsgEmail (m : Message) : String :=
  let e1 := (m.metadata.user_info.bind (·.user_email)).getD ""
  let e2 := if e1 == "" then m.metadata.email.getD "" else e1
  let e3 := if e2 == "" then (m.metadata.user_info.bind (·.email)).getD "" else e2
  if e3 == "" then "" else pyLower (pyStrip e3)

/-- The per-message inclusion decision of lines 453-485 (`should_include`). -/
def shouldIncludeMsg (uf : UserFilter) (specific_email email_pattern : String)
    (m : Message) : Bool :=
  let msg_email := resolveMsgEmail m
  let nse := if specific_email == "" then "" else pyLower (pyStrip specific_email)
  let base :=
    match uf with
    | .emailSpecifique => nse != "" && msg_email == nse
    | .tousLesUtilisateurs => !(nse != "" && msg_email != nse)
    | .adminId0 => msgUserId m == 0 && !(nse != "" && msg_email != nse)
    | .utilisateurId1 => msgUserId m == 1 && !(nse != "" && msg_email != nse)
  if base && email_pattern != "" then match_email_pattern msg_email email_pattern
  else base

/-- The running `{admin, user, total}` question tally of lines 412-431. -/
structure QTally where
  admin : Nat
  user : Nat
  total : Nat
deriving DecidableEq

/-- The `questions_stats` dict of lines 499-503. -/
def tallyToAssoc (t : QTally) : List (String × Nat) :=
  [("admin_questions", t.admin), ("user_questions", t.user),
   ("total_questions", t.total)]

/-- Timestamp of `messages[0]` when the conversation has messages and the
first message carries a `timestamp` key (lines 375-383). -/
def firstMsgTimestamp (c : Conversation) : Option ℚ :=
  match c.messages with
  | [] => none
  | m :: _ => m.timestamp

/-- The date stage of `filter_conversations` (lines 364-409): a precise day
(given by its epoch-second bounds) takes precedence over the relative window
computed from `now`; conversations without a first-message timestamp are
dropped whenever a date filter is active. -/
def dateStage (convs : List Conversation) (df : DateFilter)
    (precise : Option (ℚ × ℚ)) (now : ℚ) : List Conversation :=
  match precise with
  | some se =>
    convs.filter fun c =>
      match firstMsgTimestamp c with
      | some t => decide (se.1 ≤ t) && decide (t ≤ se.2)
      | none => false
  | none =>
    match df with
    | .toutes => convs
    | _ =>
      let days : ℚ :=
        match df with
        | .jours7 => 7 | .jours30 => 30 | .jours90 => 90 | .toutes => 0
      let cutoff := now - days * 86400
      convs.filter fun c =>
        match firstMsgTimestamp c with
        | some t => decide (cutoff ≤ t)
        | none => false

/-- Message stage (lines 422-491): one pass over a conversation's messages,
tallying every valid question before the inclusion decision and always
retaining blank-question messages. -/
def processConvMessages (uf : UserFilter) (se ep : String) :
    List Message → QTally → List Message × QTally
  | [], t => ([], t)
  | m :: rest, t =>
    if isValidQuestion m then
      let t' : QTally :=
        ⟨t.admin + (if msgUserId m == 0 then 1 else 0),
         t.user + (if msgUserId m == 0 then 0 else 1),
         t.total + 1⟩
      let r := processConvMessages uf se ep rest t'
      if shouldIncludeMsg uf se ep m then (m :: r.1, r.2) else r
    else
      let r := processConvMessages uf se ep rest t
      (m :: r.1, r.2)

/-- Conversation stage (lines 418-497): a conversation survives iff it has a
retained message; its message list is replaced by the retained ones. -/
def processConvs (uf : UserFilter) (se ep : String) :
    List Conversation → QTally → List Conversation × QTally
  | [], t => ([], t)
  | c :: rest, t =>
    let pm := processConvMessages uf se ep c.messages t
    let r := processConvs uf se ep rest pm.2
    if pm.1.isEmpty then r else ({ c with messages := pm.1 } :: r.1, r.2)

/-- `filter_conversations` (lines 354-505).  An empty input returns
`([], {})` — the stats dict is empty, hence the empty association list. -/
def filter_conversations (convs : List Conversation) (df : DateFilter)
    (uf : UserFilter) (specific_email : String) (precise : Option (ℚ × ℚ))
    (email_pattern : String) (now : ℚ) :
    List Conversation × List (String × Nat) :=
  if convs.isEmpty then ([], [])
  else
    let dated := dateStage convs df precise now
    let r := processConvs uf specific_email email_pattern dated ⟨0, 0, 0⟩
    (r.1, tallyToAssoc r.2)

/-! ### `analyze_questions_by_user_type` (dashboard.py lines 507-541)

The source reloads the snapshot from Firebase; the snapshot is the explicit
`convs` parameter here. -/

structure UserTypeStats where
  admin_questions : Nat
  user_questions : Nat
  total_questions : Nat
deriving DecidableEq

/-- Loop body of lines 527-535: tally a valid question as admin or user by
the resolved role. -/
def userTypeMsgStep (acc : Nat × Nat) (m : Message) : Nat × Nat :=
  if isValidQuestion m then
    if msgUserId m == 0 then (acc.1 + 1, acc.2) else (acc.1, acc.2 + 1)
  else acc

def analyze_questions_by_user_type (convs : List Conversation) : UserTypeStats :=
  if convs.isEmpty then ⟨0, 0, 0⟩
  else
    let p := convs.foldl (fun acc c => c.messages.foldl userTypeMsgStep acc) (0, 0)
    ⟨p.1, p.2, p.1 + p.2⟩

/-! ### Declarative question counts (for the tally claims) -/

/-- Valid-question messages classified admin by the resolved role
(`metadata.user_id`, default 1). -/
def adminQC (convs : List Conversation) : Nat :=
  (allMsgs convs).countP (fun m => isValidQuestion m && msgUserId m == 0)

/-- Valid-question messages classified regular-user by the resolved role. -/
def userQC (convs : List Conversation) : Nat :=
  (allMsgs convs).countP (fun m => isValidQuestion m && !(msgUserId m == 0))

/-! ### `analyze_conversations` (dashboard.py lines 631-739) -/

/-- One entry of the per-question lists built for multi-question
conversations (lines 703-711). -/
structure QInfo where
  question : String
  timestamp : ℚ
  modele : String
  has_docs : Bool
deriving DecidableEq

/-- Entry appended to `conversation_stats["empty_conversations"]`. -/
structure EmptyEntry where
  id : String
  message_count : Nat
deriving DecidableEq

/-- Entry appended to `conversation_stats["single_question"]`. -/
structure SingleEntry where
  id : String
  message_count : Nat
  question : String
  timestamp : ℚ
  modele : String
  has_docs : Bool
deriving DecidableEq

/-- Entry appended to `conversation_stats["multi_questions"]` (and, for 3+
questions, also to `conversation_stats["long_conversations"]`). -/
structure MultiEntry where
  id : String
  message_count : Nat
  questions : List QInfo
  first_question : String
  last_question : String
deriving DecidableEq

def qInfoOf (m : Message) : QInfo :=
  ⟨m.question, m.timestamp.getD 0, m.modele.getD "unknown", docsTruthy m⟩

def emptyEntryOf (c : Conversation) : EmptyEntry := ⟨c.id, 0⟩

def singleEntryOf (c : Conversation) : SingleEntry :=
  let valid := c.messages.filter isValidQuestion
  ⟨c.id, 1, (valid.map (·.question)).headD "",
   (valid.map (fun m => m.timestamp.getD 0)).headD 0,
   (valid.map (fun m => m.modele.getD "unknown")).headD "unknown",
   (valid.map docsTruthy).headD false⟩

def multiEntryOf (c : Conversation) : MultiEntry :=
  let valid := c.messages.filter isValidQuestion
  ⟨c.id, valid.length, valid.map qInfoOf,
   (valid.map (·.question)).headD "", (valid.map (·.question)).getLastD ""⟩

/-- Loop state of lines 651-726: the counters of `stats`, the four bucket
lists of `conversation_stats`, and the running max/min (`min` is `none`
while still `float('inf')`). -/
structure AnalyzeAcc where
  single : Nat
  multi : Nat
  long : Nat
  empty : Nat
  total_messages : Nat
  singles : List SingleEntry
  multis : List MultiEntry
  longs : List MultiEntry
  empties : List EmptyEntry
  maxM : Nat
  minM : Option Nat
deriving DecidableEq

def optMin (n : Nat) : Option Nat → Option Nat
  | none => some n
  | some m => some (min m n)

/-- The per-conversation loop of lines 670-726, processed so that the bucket
lists come out in input order (the source appends; counters and max/min are
order-independent). -/
def analyzeLoop : List Conversation → AnalyzeAcc
  | [] => ⟨0, 0, 0, 0, 0, [], [], [], [], 0, none⟩
  | c :: rest =>
    let a := analyzeLoop rest
    let n := validCount c
    let a1 :=
      if n == 0 then
        { a with empty := a.empty + 1, empties := emptyEntryOf c :: a.empties }
      else if n == 1 then
        { a with single := a.single + 1, singles := singleEntryOf c :: a.singles }
      else
        let a2 := { a with multi := a.multi + 1, multis := multiEntryOf c :: a.multis }
        if 3 ≤ n then
          { a2 with long := a2.long + 1, longs := multiEntryOf c :: a2.longs }
        else a2
    let a3 := { a1 with total_messages := a1.total_messages + n }
    if 0 < n then { a3 with maxM := max a3.maxM n, minM := optMin n a3.minM }
    else a3

/-- The final `stats` dict of the non-empty path (lines 658-734): min is 0 when
no conversation had a valid message (the `float('inf')` adjustment). -/
structure ConvStats where
  total_conversations : Nat
  single_question : Nat
  multi_questions : Nat
  long_conversations : Nat
  empty_conversations : Nat
  total_messages : Nat
  avg_messages_per_conv : ℚ
  max_messages : Nat
  min_messages : Nat
deriving DecidableEq

/-- The `conversation_stats` bucket lists. -/
structure ConvBuckets where
  single_question : List SingleEntry
  multi_questions : List MultiEntry
  long_conversations : List MultiEntry
  empty_conversations : List EmptyEntry
deriving DecidableEq

/-- Result of `analyze_conversations`: the `err` branch is the early return of
lines 638-649 (an `error` key plus an all-zero six-key `stats` dict). -/
inductive AnalyzeResult
  | err
  | ok (stats : ConvStats) (buckets : ConvBuckets)
deriving DecidableEq

def analyze_conversations (convs : List Conversation) : AnalyzeResult :=
  if convs.isEmpty then .err
  else
    let a := analyzeLoop convs
    .ok
      { total_conversations := convs.length,
        single_question := a.single,
        multi_questions := a.multi,
        long_conversations := a.long,
        empty_conversations := a.empty,
        total_messages := a.total_messages,
        avg_messages_per_conv :=
          if 0 < convs.length then (a.total_messages : ℚ) / (convs.length : ℚ) else 0,
        max_messages := a.maxM,
        min_messages := a.minM.getD 0 }
      ⟨a.singles, a.multis, a.longs, a.empties⟩

/-- Classifier bucket predicates (the branch conditions of lines 677-719). -/
def isEmptyConv (c : Conversation) : Bool := validCount c == 0

def isSingleConv (c : Conversation) : Bool := validCount c == 1

def isMultiConv (c : Conversation) : Bool := decide (2 ≤ validCount c)

def isLongConv (c : Conversation) : Bool := decide (3 ≤ validCount c)

/-- Bucket-count accessors defined on both result shapes (the early return
materializes no bucket, i.e. count 0). -/
def singleCountOf : AnalyzeResult → Nat
  | .err => 0
  | .ok s _ => s.single_question

def multiCountOf : AnalyzeResult → Nat
  | .err => 0
  | .ok s _ => s.multi_questions

def longCountOf : AnalyzeResult → Nat
  | .err => 0
  | .ok s _ => s.long_conversations

def emptyCountOf : AnalyzeResult → Nat
  | .err => 0
  | .ok s _ => s.empty_conversations

def totalCountOf : AnalyzeResult → Nat
  | .err => 0
  | .ok s _ => s.total_conversations

def singlesOf : AnalyzeResult → List SingleEntry
  | .err => []
  | .ok _ b => b.single_question

def multisOf : AnalyzeResult → List MultiEntry
  | .err => []
  | .ok _ b => b.multi_questions

def longsOf : AnalyzeResult → List MultiEntry
  | .err => []
  | .ok _ b => b.long_conversations

def emptiesOf : AnalyzeResult → List EmptyEntry
  | .err => []
  | .ok _ b => b.empty_conversations

/-! ### Duration and long-conversation analysis (dashboard.py lines 741-901) -/

/-- Insertion step of an ascending sort (Python `list.sort()` on numbers). -/
def insertSorted (x : ℚ) : List ℚ → List ℚ
  | [] => [x]
  | y :: ys => if x ≤ y then x :: y :: ys else y :: insertSorted x ys

/-- Ascending sort of a rational list. -/
def sortAsc (l : List ℚ) : List ℚ := l.foldr insertSorted []

/-- Python `max(l)` over a non-empty rational list. -/
def qListMax (l : List ℚ) : ℚ := l.foldl max (l.headD 0)

/-- Python `min(l)` over a non-empty rational list. -/
def qListMin (l : List ℚ) : ℚ := l.foldl min (l.headD 0)

/-- Python `max(l)` over a non-empty Nat list. -/
def natListMax (l : List Nat) : Nat := l.foldl max (l.headD 0)

/-- The valid-message timestamps of a conversation with non-positive values
discarded (`msg.get('timestamp', 0)` then `> 0` filtering, lines 759-760 and
line 815). -/
def posValidTimestamps (c : Conversation) : List ℚ :=
  ((c.messages.filter isValidQuestion).map (fun m => m.timestamp.getD 0)).filter
    (fun t => decide (0 < t))

/-- The same timestamps sorted ascending (`timestamps.sort()`). -/
def sortedValidTimestamps (c : Conversation) : List ℚ :=
  sortAsc (posValidTimestamps c)

/-- `f"{int(avg // 60)}h {int(avg % 60)}m" if avg > 60 else f"{int(avg)}m"`
(line 791). -/
def readableDuration (avg : ℚ) : String :=
  if 60 < avg then
    toString ⌊avg / 60⌋ ++ "h " ++ toString ⌊avg - 60 * (⌊avg / 60⌋ : ℚ)⌋ ++ "m"
  else toString ⌊avg⌋ ++ "m"

/-- One entry of `duration_stats` (lines 767-775). -/
structure DurEntry where
  id : String
  message_count : Nat
  duration_seconds : ℚ
  duration_minutes : ℚ
  duration_hours : ℚ
  first_timestamp : ℚ
  last_timestamp : ℚ
deriving DecidableEq

/-- The global summary of lines 786-792. -/
structure DurSummary where
  count : Nat
  avg_duration_minutes : ℚ
  max_duration_minutes : ℚ
  min_duration_minutes : ℚ
  avg_duration_readable : String
deriving DecidableEq

/-- Result of `get_conversation_duration_stats`: `err` is the early
`{"error": ...}` return for an empty input; a `none` summary models the
`{"count": 0}` summary of line 795. -/
inductive DurationResult
  | err
  | ok (conversations : List DurEntry) (summary : Option DurSummary)
deriving DecidableEq

def get_conversation_duration_stats (convs : List Conversation) : DurationResult :=
  if convs.isEmpty then .err
  else
    let entries := convs.foldr
      (fun c acc =>
        if 1 < validCount c then
          let ts := sortedValidTimestamps c
          if 1 < ts.length then
            let dsec := ts.getLastD 0 - ts.headD 0
            { id := c.id, message_count := validCount c,
              duration_seconds := dsec, duration_minutes := dsec / 60,
              duration_hours := dsec / 60 / 60,
              first_timestamp := ts.headD 0,
              last_timestamp := ts.getLastD 0 } :: acc
          else acc
        else acc)
      []
    if entries.isEmpty then .ok [] none
    else
      let dm := entries.map (·.duration_minutes)
      .ok entries
        (some
          { count := entries.length,
            avg_duration_minutes := dm.sum / (dm.length : ℚ),
            max_duration_minutes := qListMax dm,
            min_duration_minutes := qListMin dm,
            avg_duration_readable := readableDuration (dm.sum / (dm.length : ℚ)) })

/-- Per-adjacent-pair intervals in minutes (the loop of lines 820-823). -/
def intervalsMinutes : List ℚ → List ℚ
  | t1 :: t2 :: rest => (t2 - t1) / 60 :: intervalsMinutes (t2 :: rest)
  | _ => []

/-- `analyze_conversation_pattern` (lines 875-890), classifying by the
document-usage pattern of the messages. -/
def analyze_conversation_pattern (messages : List Message) : String :=
  let dp := messages.map docsTruthy
  if dp.all (· == true) then "Analyse pure (uniquement documents)"
  else if !(dp.any (· == true)) then "Recherche pure (aucun document)"
  else if dp.headD false && !(dp.getLastD false) then "Analyse → Recherche"
  else if !(dp.headD false) && dp.getLastD false then "Recherche → Analyse"
  else "Analyse mixte"

/-- One question entry of a long conversation (lines 844-853). -/
structure LongQ where
  question : String
  timestamp : ℚ
  modele : String
  has_docs : Bool
  docs_count : Nat
deriving DecidableEq

/-- One entry of `long_conversations` (lines 833-855).  `models_used` keeps
first-occurrence order (the source's `list(set(...))` iteration order is
modelled as first occurrence). -/
structure LongEntry where
  id : String
  message_count : Nat
  duration_minutes : ℚ
  avg_interval_minutes : ℚ
  max_interval_minutes : ℚ
  min_interval_minutes : ℚ
  docs_usage_count : Nat
  docs_usage_percentage : ℚ
  models_used : List String
  model_switches : Nat
  questions : List LongQ
  conversation_pattern : String
deriving DecidableEq

/-- The cross-conversation summary of lines 859-866. -/
structure LongSummary where
  total_count : Nat
  avg_length : ℚ
  max_length : Nat
  avg_duration : ℚ
  avg_docs_usage : ℚ
  most_active_models : List (String × Nat)
deriving DecidableEq

/-- Result of `analyze_long_conversations`: `err` is the early error return;
a `none` summary models the `{"total_count": 0}` summary. -/
inductive LongResult
  | err
  | ok (conversations : List LongEntry) (summary : Option LongSummary)
deriving DecidableEq

/-- `model_counts[model] = model_counts.get(model, 0) + 1` keeping insertion
order. -/
def bumpCount (mo : String) : List (String × Nat) → List (String × Nat)
  | [] => [(mo, 1)]
  | (k, v) :: rest => if k == mo then (k, v + 1) :: rest else (k, v) :: bumpCount mo rest

/-- Stable descending insertion by count (Python's stable `sorted` with
`reverse=True`). -/
def insertPairDesc (x : String × Nat) : List (String × Nat) → List (String × Nat)
  | [] => [x]
  | y :: ys => if y.2 < x.2 then x :: y :: ys else y :: insertPairDesc x ys

def sortPairsDesc (l : List (String × Nat)) : List (String × Nat) :=
  l.foldl (fun acc x => insertPairDesc x acc) []

/-- `get_most_used_models` (lines 892-901): appearance counts of each model
across long conversations, top three. -/
def get_most_used_models (convs : List LongEntry) : List (String × Nat) :=
  let counts := convs.foldl
    (fun acc c => c.models_used.foldl (fun a mo => bumpCount mo a) acc) []
  (sortPairsDesc counts).take 3

/-- Stable descending insertion of a long entry by `message_count`. -/
def insertCountDesc (x : LongEntry) : List LongEntry → List LongEntry
  | [] => [x]
  | y :: ys =>
    if y.message_count < x.message_count then x :: y :: ys
    else y :: insertCountDesc x ys

def sortCountDesc (l : List LongEntry) : List LongEntry :=
  l.foldl (fun acc x => insertCountDesc x acc) []

/-- The per-conversation analysis of lines 813-855 for a conversation with at
least 3 valid messages. -/
def longEntryOf (c : Conversation) : LongEntry :=
  let valid := c.messages.filter isValidQuestion
  let ts := sortedValidTimestamps c
  let intervals := if 1 < ts.length then intervalsMinutes ts else []
  let dcount := (valid.map docsTruthy).count true
  let unique := (valid.map (fun m => m.modele.getD "unknown")).eraseDups
  { id := c.id,
    message_count := valid.length,
    duration_minutes := if 1 < ts.length then (ts.getLastD 0 - ts.headD 0) / 60 else 0,
    avg_interval_minutes :=
      if intervals.isEmpty then 0 else intervals.sum / (intervals.length : ℚ),
    max_interval_minutes := if intervals.isEmpty then 0 else qListMax intervals,
    min_interval_minutes := if intervals.isEmpty then 0 else qListMin intervals,
    docs_usage_count := dcount,
    docs_usage_percentage := ((dcount : ℚ) / (valid.length : ℚ)) * 100,
    models_used := unique,
    model_switches := unique.length - 1,
    questions := valid.map (fun m =>
      ⟨m.question, m.timestamp.getD 0, m.modele.getD "unknown", docsTruthy m,
       m.docs.getD 0⟩),
    conversation_pattern := analyze_conversation_pattern valid }

def analyze_long_conversations (convs : List Conversation) : LongResult :=
  if convs.isEmpty then .err
  else
    let entries := (convs.filter isLongConv).map longEntryOf
    if entries.isEmpty then .ok (sortCountDesc entries) none
    else
      .ok (sortCountDesc entries)
        (some
          { total_count := entries.length,
            avg_length :=
              (entries.map (fun e => (e.message_count : ℚ))).sum / (entries.length : ℚ),
            max_length := natListMax (entries.map (·.message_count)),
            avg_duration :=
              (entries.map (·.duration_minutes)).sum / (entries.length : ℚ),
            avg_docs_usage :=
              (entries.map (·.docs_usage_percentage)).sum / (entries.length : ℚ),
            most_active_models := get_most_used_models entries })

/-- The `duration_minutes` fields reported by the duration analysis. -/
def durationMinutesOf : DurationResult → List ℚ
  | .err => []
  | .ok entries _ => entries.map (·.duration_minutes)

/-- The `duration_minutes` fields reported by the long-conversation analysis. -/
def longDurationsOf : LongResult → List ℚ
  | .err => []
  | .ok entries _ => entries.map (·.duration_minutes)

/-! ### `calculate_total_cost` (dashboard.py lines 921-950) -/

/-- The running accumulators of lines 923-926 (`total_cost`, `total_tokens`,
`model_costs`, `model_tokens`); the defaultdicts are association lists in
insertion order. -/
structure CostAcc where
  total_cost : ℚ
  total_tokens : ℚ
  model_costs : List (String × ℚ)
  model_tokens : List (String × ℚ)
deriving DecidableEq

/-- `defaultdict` accumulation `d[key] += q` (0 when the key is absent),
keeping insertion order. -/
def updQ (key : String) (q : ℚ) : List (String × ℚ) → List (String × ℚ)
  | [] => [(key, q)]
  | (k, v) :: rest =>
    if k == key then (k, v + q) :: rest else (k, v) :: updQ key q rest

/-- Value stored for a key in a cost `defaultdict` (0 when absent). -/
def lookQ : List (String × ℚ) → String → ℚ
  | [], _ => 0
  | (k, v) :: rest, key => if key == k then v else lookQ rest key

/-- The model whose cost is excluded from the displayed total (line 941). -/
def excludedModel : String := "gemini-2.0-flash-exp"

/-- The per-message body of lines 929-948.  The guarded adds to the global
totals happen first; `model_costs[modele] += prix` and
`model_tokens[modele] += tokens` are UNGUARDED, so a non-numeric `prix` or
`tokens` raises `TypeError` there (`.error ()`). -/
def costStepMsg (m : Message) (acc : CostAcc) : Except Unit CostAcc :=
  let modele := m.modele.getD "unknown"
  match m.metadata.cout.getD (.dict none none) with
  | .nonDict => .ok acc
  | .dict p t =>
    let prix := p.getD (.num 0)
    let tokens := t.getD (.num 0)
    let acc1 :=
      match prix with
      | .num q =>
        if modele != excludedModel then { acc with total_cost := acc.total_cost + q }
        else acc
      | .other => acc
    let acc2 :=
      match tokens with
      | .num q => { acc1 with total_tokens := acc1.total_tokens + q }
      | .other => acc1
    match prix with
    | .other => .error ()
    | .num q =>
      let acc3 := { acc2 with model_costs := updQ modele q acc2.model_costs }
      match tokens with
      | .other => .error ()
      | .num q2 => .ok { acc3 with model_tokens := updQ modele q2 acc3.model_tokens }

def costFoldMsgs : List Message → CostAcc → Except Unit CostAcc
  | [], acc => .ok acc
  | m :: rest, acc =>
    match costStepMsg m acc with
    | .error e => .error e
    | .ok acc2 => costFoldMsgs rest acc2

def costFoldConvs : List Conversation → CostAcc → Except Unit CostAcc
  | [], acc => .ok acc
  | c :: rest, acc =>
    match costFoldMsgs c.messages acc with
    | .error e => .error e
    | .ok acc2 => costFoldConvs rest acc2

/-- `calculate_total_cost`: the nested message loop, threading the Python
exception through `Except`. -/
def calculate_total_cost (convs : List Conversation) : Except Unit CostAcc :=
  costFoldConvs convs ⟨0, 0, [], []⟩

/-! ### Declarative cost/token sums -/

/-- The effective `prix` field after `metadata.get('cout', {})` and the
`isinstance(cout, dict)` check: `none` when `cout` is a non-mapping value,
otherwise `cout.get('prix', 0)`. -/
def msgPrixF (m : Message) : Option FieldVal :=
  match m.metadata.cout.getD (.dict none none) with
  | .nonDict => none
  | .dict p _ => some (p.getD (.num 0))

/-- The effective `tokens` field, resolved the same way. -/
def msgTokensF (m : Message) : Option FieldVal :=
  match m.metadata.cout.getD (.dict none none) with
  | .nonDict => none
  | .dict _ t => some (t.getD (.num 0))

/-- A message's contribution to the DISPLAYED cost total: its numeric `prix`,
except that messages of the excluded model contribute 0. -/
def msgDispCost (m : Message) : ℚ :=
  match msgPrixF m with
  | some (.num q) => if m.modele.getD "unknown" != excludedModel then q else 0
  | _ => 0

/-- A message's contribution to the global token total — model-independent:
the exclusion rule does not apply to tokens. -/
def msgAllTokens (m : Message) : ℚ :=
  match msgTokensF m with
  | some (.num q) => q
  | _ => 0

/-- A message's contribution to the per-model cost accumulator of `mdl`
(its numeric `prix` whenever its model is `mdl`, excluded model included). -/
def msgModelCost (mdl : String) (m : Message) : ℚ :=
  if m.modele.getD "unknown" == mdl then
    match msgPrixF m with
    | some (.num q) => q
    | _ => 0
  else 0

def displayedCostSpec (convs : List Conversation) : ℚ :=
  ((allMsgs convs).map msgDispCost).sum

def allTokensSpec (convs : List Conversation) : ℚ :=
  ((allMsgs convs).map msgAllTokens).sum

def modelCostSpec (mdl : String) (convs : List Conversation) : ℚ :=
  ((allMsgs convs).map (msgModelCost mdl)).sum

/-! ### Feedback aggregation (spec §4.7 — no source under src/) -/

/-- Modelled from the spec: the repository source under `src/` contains no
feedback aggregator (no code reads a message `feedback` field); §4.7 of the
specification defines one.  A message's tallied rating: a non-empty `feedback`
string starting with the fixed prefix `rating_` whose suffix is one of
"1".."5"; any other suffix is ignored. -/
def ratingOf (m : Message) : Option Nat :=
  match m.feedback with
  | none => none
  | some f =>
    if f == "" then none
    else if strStarts f "rating_" then
      let suf := strDropLeft f 7
      if suf == "1" then some 1
      else if suf == "2" then some 2
      else if suf == "3" then some 3
      else if suf == "4" then some 4
      else if suf == "5" then some 5
      else none
    else none

/-- Modelled from the spec (§4.7): a message is tallied iff it has a
non-blank question AND passes the same §4.3 step-3 role/email inclusion
decision as the filter (`shouldIncludeMsg`, translated from the source). -/
def feedbackEligible (uf : UserFilter) (se ep : String) (m : Message) : Bool :=
  isValidQuestion m && shouldIncludeMsg uf se ep m

/-- The running per-rating counters. -/
structure FTal where
  c1 : Nat
  c2 : Nat
  c3 : Nat
  c4 : Nat
  c5 : Nat
deriving DecidableEq

/-- One tally step: bump the counter of the message's rating, ignore
messages without a tallied rating. -/
def fStep (t : FTal) (m : Message) : FTal :=
  match ratingOf m with
  | some 1 => { t with c1 := t.c1 + 1 }
  | some 2 => { t with c2 := t.c2 + 1 }
  | some 3 => { t with c3 := t.c3 + 1 }
  | some 4 => { t with c4 := t.c4 + 1 }
  | some 5 => { t with c5 := t.c5 + 1 }
  | _ => t

/-- Feedback distribution: per-rating counts, total, mean rating and
satisfaction percentage — or the "no feedback" report when the total is 0. -/
inductive FeedbackResult
  | noFeedback
  | dist (c1 c2 c3 c4 c5 : Nat) (total : Nat) (mean : ℚ) (satisfaction : ℚ)
deriving DecidableEq

/-- Modelled from the spec (§4.7): filter the eligible messages, fold the
rating tally over them, and report the distribution with
mean = Σ(rating × count)/total and satisfaction = (count 4 + count 5)/total ×
100, or "no feedback" when total = 0. -/
def aggregate_feedback (convs : List Conversation) (uf : UserFilter)
    (se ep : String) : FeedbackResult :=
  let msgs := (allMsgs convs).filter (feedbackEligible uf se ep)
  let t := msgs.foldl fStep ⟨0, 0, 0, 0, 0⟩
  let total := t.c1 + t.c2 + t.c3 + t.c4 + t.c5
  if total = 0 then .noFeedback
  else
    .dist t.c1 t.c2 t.c3 t.c4 t.c5 total
      ((t.c1 + 2 * t.c2 + 3 * t.c3 + 4 * t.c4 + 5 * t.c5 : ℚ) / (total : ℚ))
      (((t.c4 + t.c5 : ℚ) / (total : ℚ)) * 100)

/-- Declarative count following the spec's words: the number of messages with
rating `i` among those with a non-blank question that pass the §4.3 step-3
filtering. -/
def feedbackSpecCount (convs : List Conversation) (uf : UserFilter)
    (se ep : String) (i : Nat) : Nat :=
  (allMsgs convs).countP
    (fun m => ratingOf m == some i && feedbackEligible uf se ep m)

/-- The result prescribed by the spec's words, built from the declarative
counts. -/
def feedbackSpecResult (convs : List Conversation) (uf : UserFilter)
    (se ep : String) : FeedbackResult :=
  let c := fun i => feedbackSpecCount convs uf se ep i
  let total := c 1 + c 2 + c 3 + c 4 + c 5
  if total = 0 then .noFeedback
  else
    .dist (c 1) (c 2) (c 3) (c 4) (c 5) total
      ((c 1 + 2 * c 2 + 3 * c 3 + 4 * c 4 + 5 * c 5 : ℚ) / (total : ℚ))
      (((c 4 + c 5 : ℚ) / (total : ℚ)) * 100)

/-! ### Concrete inputs used by witnesses and counterexamples -/

/-- A message carrying no interesting metadata beyond what each example sets. -/
def mkMsg (q : String) (ts : Option ℚ) (md : MsgMetadata) : Message :=
  { question := q, timestamp := ts, modele := none, docs := none,
    feedback := none, metadata := md }

/-- Empty per-message metadata (every key absent). -/
def mdNone : MsgMetadata := ⟨none, none, none, none⟩

/-- An admin question (explicit `metadata.user_id = 0`). -/
def c4wConv : Conversation :=
  ⟨"w1", [mkMsg "hello" (some 5) ⟨some 0, none, none, none⟩]⟩

/-- A question whose role is stored only under `metadata.user_info.user_id`
(value 0, i.e. admin) — `metadata.user_id` itself is absent. -/
def c5Convs : List Conversation :=
  [⟨"c5", [mkMsg "who" (some 3) ⟨none, some ⟨some 0, none, none⟩, none, none⟩]⟩]

/-- The C3 scenario: 3 valid messages at timestamps 0, 600 and 1800 seconds. -/
def c3conv : Conversation :=
  ⟨"c3", [mkMsg "q1" (some 0) mdNone, mkMsg "q2" (some 600) mdNone,
          mkMsg "q3" (some 1800) mdNone]⟩

/-- A message of a given model with given `cout` fields. -/
def mkCostMsg (mo : String) (p t : Option FieldVal) : Message :=
  { question := "q", timestamp := some 1, modele := some mo, docs := none,
    feedback := none, metadata := ⟨none, none, none, some (.dict p t)⟩ }

/-- C2 failing input: `metadata.cout.prix` is non-numeric. -/
def c2Convs : List Conversation :=
  [⟨"c2", [mkCostMsg "gpt-4" (some .other) (some (.num 5))]⟩]

/-- C2 contrast input: `prix` and `tokens` keys MISSING (defaulted to 0). -/
def c2bConvs : List Conversation :=
  [⟨"c2b", [mkCostMsg "gpt-4" none none]⟩]

/-- The C7 scenario: an excluded-model message with prix 5.0 followed by a
gpt-4 message with prix 2.0. -/
def c7conv : Conversation :=
  ⟨"c7", [mkCostMsg "gemini-2.0-flash-exp" (some (.num 5)) none,
          mkCostMsg "gpt-4" (some (.num 2)) none]⟩

/-- The expected C7 result. -/
def c7res : CostAcc :=
  ⟨2, 0, [("gemini-2.0-flash-exp", 5), ("gpt-4", 2)],
   [("gemini-2.0-flash-exp", 0), ("gpt-4", 0)]⟩

/-- A feedback-carrying message. -/
def mkFbMsg (q fb : String) : Message :=
  { question := q, timestamp := some 1, modele := none, docs := none,
    feedback := some fb, metadata := mdNone }

/-- The C1 distribution scenario: ratings 3, 4, 4, 5 among eligible
messages, plus an invalid suffix (`rating_9`), a blank-question message and a
free-form feedback token, all ignored. -/
def c1Convs : List Conversation :=
  [⟨"f1", [mkFbMsg "a" "rating_3", mkFbMsg "b" "rating_4"]⟩,
   ⟨"f2", [mkFbMsg "c" "rating_4", mkFbMsg "d" "rating_5",
           mkFbMsg "e" "rating_9", mkFbMsg "" "rating_5",
           mkFbMsg "f" "great"]⟩]

/-- The C10 scenario: a single excluded-model message with tokens 7. -/
def c10Convs : List Conversation :=
  [⟨"c10", [mkCostMsg "gemini-2.0-flash-exp" (some (.num 5)) (some (.num 7))]⟩]

/-- The expected C10 result: cost excluded from the total, tokens not. -/
def c10res : CostAcc :=
  ⟨0, 7, [("gemini-2.0-flash-exp", 5)], [("gemini-2.0-flash-exp", 7)]⟩

/-! ### Claim theorems (first group) -/

/-- The tally component of the message stage counts exactly the valid-question
messages, split on the resolved role, independently of the filter criteria. -/
theorem processConvMessages_tally (uf : UserFilter) (se ep : String)
    (msgs : List Message) :
    ∀ t : QTally,
      (processConvMessages uf se ep msgs t).2 =
        ⟨t.admin + msgs.countP (fun m => isValidQuestion m && msgUserId m == 0),
         t.user + msgs.countP (fun m => isValidQuestion m && !(msgUserId m == 0)),
         t.total + (msgs.countP (fun m => isValidQuestion m && msgUserId m == 0) +
           msgs.countP (fun m => isValidQuestion m && !(msgUserId m == 0)))⟩ := by
  induction msgs with
  | nil => intro t; simp [processConvMessages]
  | cons m rest ih =>
    intro t
    simp only [processConvMessages]
    by_cases hv : isValidQuestion m = true
    · by_cases hi : shouldIncludeMsg uf se ep m = true <;>
        by_cases h0 : (msgUserId m == 0) = true <;>
          simp [hv, hi, h0, ih, List.countP_cons, QTally.mk.injEq] <;> omega
    · simp [hv, ih, List.countP_cons]

/-- The tally of the conversation stage equals the declarative counts over all
messages of the processed conversations, whatever the filter criteria. -/
theorem processConvs_tally (uf : UserFilter) (se ep : String)
    (convs : List Conversation) :
    ∀ t : QTally,
      (processConvs uf se ep convs t).2 =
        ⟨t.admin + adminQC convs, t.user + userQC convs,
         t.total + (adminQC convs + userQC convs)⟩ := by
  induction convs with
  | nil => intro t; simp [processConvs, adminQC, userQC, allMsgs]
  | cons c rest ih =>
    intro t
    simp only [processConvs]
    have hm := processConvMessages_tally uf se ep c.messages t
    by_cases he : (processConvMessages uf se ep c.messages t).1.isEmpty = true <;>
      simp [he, ih, hm, adminQC, userQC, allMsgs, List.countP_append,
        QTally.mk.injEq] <;> omega

/-- Claim C4 (counterexample): on the empty input collection the filter's
returned tally is the empty mapping — the key `total_questions` is absent, so
the tally is not of the claimed `{admin, user, total}` shape there. -/
theorem c4_counterexample :
    ((filter_conversations [] .toutes .tousLesUtilisateurs "" none "" 0).2).lookup
      "total_questions" = none := by decide

/-- Claim C4 (amended: for every NONEMPTY input collection): the question tally
returned by `filter_conversations` counts every valid-question message of every
date-surviving conversation, is the same whatever role filter, exact-email or
email-pattern criteria are set (the right-hand side does not mention them), and
its `total_questions` equals `admin_questions + user_questions`. -/
theorem c4_tally_amended (convs : List Conversation) (df : DateFilter)
    (uf : UserFilter) (se : String) (pd : Option (ℚ × ℚ)) (ep : String)
    (now : ℚ) (h : convs ≠ []) :
    (filter_conversations convs df uf se pd ep now).2 =
      [("admin_questions", adminQC (dateStage convs df pd now)),
       ("user_questions", userQC (dateStage convs df pd now)),
       ("total_questions",
        adminQC (dateStage convs df pd now) + userQC (dateStage convs df pd now))] := by
  have he : filter_conversations convs df uf se pd ep now =
      ((processConvs uf se ep (dateStage convs df pd now) ⟨0, 0, 0⟩).1,
       tallyToAssoc (processConvs uf se ep (dateStage convs df pd now) ⟨0, 0, 0⟩).2) := by
    unfold filter_conversations
    rw [if_neg (by simpa [List.isEmpty_iff] using h)]
  rw [he, processConvs_tally]
  simp [tallyToAssoc]

theorem c4_tally_witness :
    [c4wConv] ≠ [] ∧
    (filter_conversations [c4wConv] .toutes .utilisateurId1 "" none "" 0).2 =
      [("admin_questions", 1), ("user_questions", 0), ("total_questions", 1)] := by
  refine ⟨by decide, ?_⟩
  rw [c4_tally_amended [c4wConv] .toutes .utilisateurId1 "" none "" 0 (by decide)]
  decide

/-- Claim C5 (counterexample): a message whose role is stored only under
`metadata.user_info.user_id = 0` is tallied as a regular-user question (and
not as an admin question) by both the user-type statistics and the filter:
the code reads only `metadata.user_id` and falls back to the default 1. -/
theorem c5_counterexample :
    analyze_questions_by_user_type c5Convs = ⟨0, 1, 1⟩ ∧
    (filter_conversations c5Convs .toutes .tousLesUtilisateurs "" none "" 0).2.lookup
      "admin_questions" = some 0 := by decide

/-- The message-level user-type fold counts valid questions split on the
resolved role (`metadata.user_id`, default 1). -/
theorem userTypeFold_msgs (msgs : List Message) :
    ∀ acc : Nat × Nat,
      msgs.foldl userTypeMsgStep acc =
        (acc.1 + msgs.countP (fun m => isValidQuestion m && msgUserId m == 0),
         acc.2 + msgs.countP (fun m => isValidQuestion m && !(msgUserId m == 0))) := by
  induction msgs with
  | nil => simp
  | cons m rest ih =>
    intro acc
    simp only [List.foldl_cons, userTypeMsgStep]
    by_cases hv : isValidQuestion m = true
    · by_cases h0 : (msgUserId m == 0) = true <;>
        simp [hv, h0, ih, List.countP_cons, Prod.ext_iff] <;> omega
    · simp [hv, ih, List.countP_cons]

/-- The conversation-level user-type fold accumulates the declarative counts. -/
theorem userTypeFold_convs (convs : List Conversation) :
    ∀ acc : Nat × Nat,
      convs.foldl (fun acc c => c.messages.foldl userTypeMsgStep acc) acc =
        (acc.1 + adminQC convs, acc.2 + userQC convs) := by
  induction convs with
  | nil => intro acc; simp [adminQC, userQC, allMsgs]
  | cons c rest ih =>
    intro acc
    simp only [List.foldl_cons]
    rw [userTypeFold_msgs, ih]
    simp [adminQC, userQC, allMsgs, List.countP_append, Prod.ext_iff]
    omega

/-- Claim C5 (amended): the resolved role used by the user-type statistics and
by the filter tally is `metadata.user_id` when present, otherwise the default
1; `metadata.user_info.user_id` is never consulted, so a message whose role is
stored only there is classified as a regular user.  (The declarative counts on
the right-hand sides read only `metadata.user_id`.) -/
theorem c5_role_resolution_amended (convs : List Conversation) (uf : UserFilter)
    (se ep : String) (t : QTally) :
    analyze_questions_by_user_type convs =
      ⟨adminQC convs, userQC convs, adminQC convs + userQC convs⟩ ∧
    (processConvs uf se ep convs t).2 =
      ⟨t.admin + adminQC convs, t.user + userQC convs,
       t.total + (adminQC convs + userQC convs)⟩ := by
  refine ⟨?_, processConvs_tally uf se ep convs t⟩
  cases convs with
  | nil => simp [analyze_questions_by_user_type, adminQC, userQC, allMsgs]
  | cons c rest =>
    simp only [analyze_questions_by_user_type, List.isEmpty_cons, if_neg]
    rw [userTypeFold_convs]
    simp

/-- Claim C6 (counterexample): on the empty input collection the filter
returns `([], {})`; none of the three tally keys is present in the returned
mapping, so the claimed all-zero tally is not produced. -/
theorem c6_counterexample :
    filter_conversations [] .jours7 .adminId0 "a@b.com" none "*x*" 0 = ([], []) ∧
    (filter_conversations [] .jours7 .adminId0 "a@b.com" none "*x*" 0).2.lookup
      "admin_questions" = none ∧
    (filter_conversations [] .jours7 .adminId0 "a@b.com" none "*x*" 0).2.lookup
      "user_questions" = none := by decide

/-- Claim C6 (amended): on the empty input collection, with any criteria, the
filter returns the empty conversation list together with an EMPTY stats
mapping (no keys at all), without failing. -/
theorem c6_empty_filter_amended (df : DateFilter) (uf : UserFilter)
    (se : String) (pd : Option (ℚ × ℚ)) (ep : String) (now : ℚ) :
    filter_conversations [] df uf se pd ep now = ([], []) := rfl

/-- Claim C3 (counterexample): for the conversation with valid messages at
timestamps 0, 600 and 1800 seconds, the code does NOT report
duration_minutes == 30 with intervals [10, 20]: the timestamp 0 is discarded
as non-positive, so only [600, 1800] remain. -/
theorem c3_counterexample :
    ¬ (durationMinutesOf (get_conversation_duration_stats [c3conv]) = [30] ∧
       intervalsMinutes (sortedValidTimestamps c3conv) = [10, 20]) := by
  with_unfolding_all decide

/-- Claim C3 (amended): for 3 valid messages at timestamps 0, 600 and 1800
seconds, the timestamp 0 is discarded as non-positive, the remaining
timestamps are sorted to [600, 1800], and the analysis reports
duration_minutes == 20 with per-adjacent-pair intervals_minutes == [20]
(both in `get_conversation_duration_stats` and `analyze_long_conversations`). -/
theorem c3_duration_amended :
    sortedValidTimestamps c3conv = [600, 1800] ∧
    durationMinutesOf (get_conversation_duration_stats [c3conv]) = [20] ∧
    intervalsMinutes (sortedValidTimestamps c3conv) = [20] ∧
    longDurationsOf (analyze_long_conversations [c3conv]) = [20] := by
  with_unfolding_all decide

/-! ### Classifier lemmas and claim C9 -/

/-- The classifier loop materializes each bucket as the map of an entry
builder over the conversations satisfying that bucket's branch condition, and
each counter as the matching filter length. -/
theorem analyzeLoop_buckets (convs : List Conversation) :
    (analyzeLoop convs).empties = (convs.filter isEmptyConv).map emptyEntryOf ∧
    (analyzeLoop convs).singles = (convs.filter isSingleConv).map singleEntryOf ∧
    (analyzeLoop convs).multis = (convs.filter isMultiConv).map multiEntryOf ∧
    (analyzeLoop convs).longs = (convs.filter isLongConv).map multiEntryOf ∧
    (analyzeLoop convs).empty = (convs.filter isEmptyConv).length ∧
    (analyzeLoop convs).single = (convs.filter isSingleConv).length ∧
    (analyzeLoop convs).multi = (convs.filter isMultiConv).length ∧
    (analyzeLoop convs).long = (convs.filter isLongConv).length := by
  induction convs with
  | nil => simp [analyzeLoop]
  | cons c rest ih =>
    obtain ⟨h1, h2, h3, h4, h5, h6, h7, h8⟩ := ih
    simp only [analyzeLoop, List.filter_cons]
    by_cases h0 : validCount c = 0
    · simp [isEmptyConv, isSingleConv, isMultiConv, isLongConv, h0,
        h1, h2, h3, h4, h5, h6, h7, h8]
    · have hpos : 0 < validCount c := Nat.pos_of_ne_zero h0
      by_cases hone : validCount c = 1
      · simp [isEmptyConv, isSingleConv, isMultiConv, isLongConv, h0, hone,
          hpos, h1, h2, h3, h4, h5, h6, h7, h8]
      · have htwo : 2 ≤ validCount c := by omega
        by_cases hlong : 3 ≤ validCount c
        · simp [isEmptyConv, isSingleConv, isMultiConv, isLongConv, h0, hone,
            hpos, htwo, hlong, h1, h2, h3, h4, h5, h6, h7, h8]
        · simp [isEmptyConv, isSingleConv, isMultiConv, isLongConv, h0, hone,
            hpos, htwo, hlong, h1, h2, h3, h4, h5, h6, h7, h8]

/-- The three classifier branch conditions are mutually exclusive and
exhaustive, so the filtered lists partition the input by length. -/
theorem classifier_filter_partition (convs : List Conversation) :
    (convs.filter isSingleConv).length + (convs.filter isMultiConv).length +
      (convs.filter isEmptyConv).length = convs.length := by
  induction convs with
  | nil => simp
  | cons c rest ih =>
    simp only [List.filter_cons, isEmptyConv, isSingleConv, isMultiConv]
    by_cases h0 : validCount c = 0
    · simp [h0]; omega
    · by_cases hone : validCount c = 1
      · simp [hone]; omega
      · have htwo : 2 ≤ validCount c := by omega
        simp [h0, hone, htwo]; omega

/-- A filter by a stronger predicate is a sublist of the filter by a weaker
one. -/
theorem filter_sublist_of_imp {α : Type} (p q : α → Bool)
    (h : ∀ a, p a = true → q a = true) :
    ∀ l : List α, (l.filter p).Sublist (l.filter q) := by
  intro l
  induction l with
  | nil => simp
  | cons a l ih =>
    simp only [List.filter_cons]
    by_cases hp : p a = true
    · simp only [hp, h a hp, if_true]
      exact ih.cons₂ a
    · by_cases hq : q a = true
      · simp only [hp, hq, if_true, if_false, Bool.false_eq_true]
        exact ih.cons a
      · simp only [hp, hq, if_false, Bool.false_eq_true]
        exact ih

/-- Claim C9: the classifier assigns each conversation to exactly one of the
empty (0 valid messages), single (exactly 1), multi (2+) buckets — each bucket
list is exactly the input filtered by its branch condition, and those
conditions partition the input, so the three counts sum to the total number of
conversations; the long bucket (3+ valid messages) is a sublist (hence a
subset) of the multi bucket. -/
theorem c9_classifier_partition (convs : List Conversation) :
    singleCountOf (analyze_conversations convs) +
      multiCountOf (analyze_conversations convs) +
      emptyCountOf (analyze_conversations convs) =
        totalCountOf (analyze_conversations convs) ∧
    totalCountOf (analyze_conversations convs) = convs.length ∧
    longCountOf (analyze_conversations convs) ≤
      multiCountOf (analyze_conversations convs) ∧
    (longsOf (analyze_conversations convs)).Sublist
      (multisOf (analyze_conversations convs)) ∧
    emptiesOf (analyze_conversations convs) =
      (convs.filter isEmptyConv).map emptyEntryOf ∧
    singlesOf (analyze_conversations convs) =
      (convs.filter isSingleConv).map singleEntryOf ∧
    multisOf (analyze_conversations convs) =
      (convs.filter isMultiConv).map multiEntryOf ∧
    longsOf (analyze_conversations convs) =
      (convs.filter isLongConv).map multiEntryOf := by
  have himp : ∀ c : Conversation, isLongConv c = true → isMultiConv c = true := by
    intro c
    simp only [isLongConv, isMultiConv, decide_eq_true_eq]
    omega
  cases convs with
  | nil => simp [analyze_conversations, singleCountOf, multiCountOf, emptyCountOf,
      totalCountOf, longCountOf, singlesOf, multisOf, emptiesOf, longsOf]
  | cons c rest =>
    obtain ⟨b1, b2, b3, b4, b5, b6, b7, b8⟩ := analyzeLoop_buckets (c :: rest)
    have hsub := (filter_sublist_of_imp isLongConv isMultiConv himp (c :: rest)).map
      multiEntryOf
    simp only [analyze_conversations, List.isEmpty_cons, Bool.false_eq_true,
      if_false, singleCountOf, multiCountOf, emptyCountOf, totalCountOf,
      longCountOf, singlesOf, multisOf, emptiesOf, longsOf,
      b1, b2, b3, b4, b5, b6, b7, b8]
    refine ⟨classifier_filter_partition (c :: rest), trivial, ?_, hsub,
      trivial, trivial, trivial, trivial⟩
    calc ((c :: rest).filter isLongConv).length
        = (((c :: rest).filter isLongConv).map multiEntryOf).length := by
          rw [List.length_map]
      _ ≤ (((c :: rest).filter isMultiConv).map multiEntryOf).length :=
          hsub.length_le
      _ = ((c :: rest).filter isMultiConv).length := by rw [List.length_map]

/-- Claim C8: the email pattern matcher satisfies all six specified test
equalities (exact/domain-suffix/user-wildcard/domain-wildcard/empty-email/
empty-pattern behaviour of `match_email_pattern`). -/
theorem c8_email_pattern_tests :
    match_email_pattern "a@b.com" "@b.com" = true ∧
    match_email_pattern "a@b.com" "x@*" = false ∧
    match_email_pattern "x@b.com" "x@*" = true ∧
    match_email_pattern "a@gmail.com" "*@gmail.com" = true ∧
    match_email_pattern "" "@b.com" = false ∧
    match_email_pattern "a@b.com" "" = true := by
  decide

/-! ### Cost aggregation lemmas and claims C2, C7, C10 -/

/-- Projections through the conditional total-cost update of the cost step. -/
theorem ite_costAcc_model_costs (c : Prop) [Decidable c] (acc : CostAcc) (z : ℚ) :
    (if c then { acc with total_cost := z } else acc).model_costs =
      acc.model_costs := by
  split <;> rfl

/-- Bumping one key of a cost defaultdict shifts exactly that key's value. -/
theorem lookQ_updQ (key : String) (q : ℚ) (l : List (String × ℚ)) (mdl : String) :
    lookQ (updQ key q l) mdl = lookQ l mdl + (if key == mdl then q else 0) := by
  induction l with
  | nil =>
    by_cases h : key = mdl
    · subst h; simp [updQ, lookQ]
    · have h2 : ¬(mdl = key) := fun e => h e.symm
      simp [updQ, lookQ, h, h2]
  | cons kv rest ih =>
    obtain ⟨k, v⟩ := kv
    by_cases h1 : k = key
    · subst h1
      by_cases h2 : k = mdl
      · subst h2; simp [updQ, lookQ]
      · have h3 : ¬(mdl = k) := fun e => h2 e.symm
        simp [updQ, lookQ, h2, h3]
    · by_cases h2 : mdl = k
      · subst h2
        have h3 : ¬(key = mdl) := fun e => h1 e.symm
        simp [updQ, lookQ, h1, h3]
      · simp [updQ, lookQ, h1, h2, ih]

/-- When the per-message cost step succeeds, the accumulators each advance by
the message's declarative contribution. -/
theorem costStepMsg_ok (m : Message) (acc acc2 : CostAcc)
    (h : costStepMsg m acc = .ok acc2) :
    acc2.total_cost = acc.total_cost + msgDispCost m ∧
    acc2.total_tokens = acc.total_tokens + msgAllTokens m ∧
    ∀ mdl, lookQ acc2.model_costs mdl =
      lookQ acc.model_costs mdl + msgModelCost mdl m := by
  unfold costStepMsg at h
  rcases hc : m.metadata.cout.getD (.dict none none) with ⟨p, t⟩ | _
  · rw [hc] at h
    simp only at h
    rcases hp : p.getD (.num 0) with q | _ <;> rw [hp] at h
    · rcases ht : t.getD (.num 0) with q2 | _ <;> rw [ht] at h
      · simp only [Except.ok.injEq] at h
        subst h
        refine ⟨?_, ?_, ?_⟩
        · by_cases hm : m.modele.getD "unknown" = excludedModel <;>
            simp [msgDispCost, msgPrixF, hc, hp, hm]
        · by_cases hm : m.modele.getD "unknown" = excludedModel <;>
            simp [msgAllTokens, msgTokensF, hc, ht, hm]
        · intro mdl
          simp only [ite_costAcc_model_costs, lookQ_updQ]
          by_cases hd : m.modele.getD "unknown" = mdl <;>
            simp [msgModelCost, msgPrixF, hc, hp, hd]
      · exact absurd h (by simp)
    · exact absurd h (by simp)
  · rw [hc] at h
    simp only [Except.ok.injEq] at h
    subst h
    simp [msgDispCost, msgAllTokens, msgModelCost, msgPrixF, msgTokensF, hc]

/-- Folding the cost step over a message list, when it succeeds, adds the
per-message contributions to every accumulator. -/
theorem costFoldMsgs_ok (msgs : List Message) :
    ∀ acc r : CostAcc, costFoldMsgs msgs acc = .ok r →
      r.total_cost = acc.total_cost + (msgs.map msgDispCost).sum ∧
      r.total_tokens = acc.total_tokens + (msgs.map msgAllTokens).sum ∧
      ∀ mdl, lookQ r.model_costs mdl =
        lookQ acc.model_costs mdl + (msgs.map (msgModelCost mdl)).sum := by
  induction msgs with
  | nil =>
    intro acc r h
    simp only [costFoldMsgs, Except.ok.injEq] at h
    subst h
    simp
  | cons m rest ih =>
    intro acc r h
    simp only [costFoldMsgs] at h
    rcases hs : costStepMsg m acc with e | acc2 <;> rw [hs] at h
    · exact absurd h (by simp)
    · obtain ⟨h1, h2, h3⟩ := costStepMsg_ok m acc acc2 hs
      obtain ⟨g1, g2, g3⟩ := ih acc2 r h
      refine ⟨?_, ?_, ?_⟩
      · rw [g1, h1]; simp only [List.map_cons, List.sum_cons]; ring
      · rw [g2, h2]; simp only [List.map_cons, List.sum_cons]; ring
      · intro mdl
        rw [g3 mdl, h3 mdl]
        simp only [List.map_cons, List.sum_cons]
        ring

/-- Folding over the conversations, when it succeeds, adds the declarative
sums to every accumulator. -/
theorem costFoldConvs_ok (convs : List Conversation) :
    ∀ acc r : CostAcc, costFoldConvs convs acc = .ok r →
      r.total_cost = acc.total_cost + displayedCostSpec convs ∧
      r.total_tokens = acc.total_tokens + allTokensSpec convs ∧
      ∀ mdl, lookQ r.model_costs mdl =
        lookQ acc.model_costs mdl + modelCostSpec mdl convs := by
  induction convs with
  | nil =>
    intro acc r h
    simp only [costFoldConvs, Except.ok.injEq] at h
    subst h
    simp [displayedCostSpec, allTokensSpec, modelCostSpec, allMsgs]
  | cons c rest ih =>
    intro acc r h
    simp only [costFoldConvs] at h
    rcases hs : costFoldMsgs c.messages acc with e | acc2 <;> rw [hs] at h
    · exact absurd h (by simp)
    · obtain ⟨h1, h2, h3⟩ := costFoldMsgs_ok c.messages acc acc2 hs
      obtain ⟨g1, g2, g3⟩ := ih acc2 r h
      have hd : displayedCostSpec (c :: rest) =
          (c.messages.map msgDispCost).sum + displayedCostSpec rest := by
        simp [displayedCostSpec, allMsgs]
      have ht : allTokensSpec (c :: rest) =
          (c.messages.map msgAllTokens).sum + allTokensSpec rest := by
        simp [allTokensSpec, allMsgs]
      refine ⟨by rw [g1, h1, hd]; ring, by rw [g2, h2, ht]; ring, ?_⟩
      intro mdl
      have hm : modelCostSpec mdl (c :: rest) =
          (c.messages.map (msgModelCost mdl)).sum + modelCostSpec mdl rest := by
        simp [modelCostSpec, allMsgs]
      rw [g3 mdl, h3 mdl, hm]
      ring

/-- Claim C2 (code bug): cost aggregation DOES abort on a message whose
`metadata.cout.prix` is non-numeric — the guarded adds skip it, but
`model_costs[modele] += prix` on line 947 is unguarded and raises `TypeError`
(first conjunct).  Missing fields, by contrast, default to 0 and are
aggregated silently (second conjunct). -/
theorem c2_cost_nonnumeric_aborts :
    calculate_total_cost c2Convs = .error () ∧
    calculate_total_cost c2bConvs = .ok ⟨0, 0, [("gpt-4", 0)], [("gpt-4", 0)]⟩ := by
  refine ⟨?_, ?_⟩ <;> with_unfolding_all rfl

/-- Claim C7: on the two-message input `[{model: gemini-2.0-flash-exp,
prix: 5.0}, {model: gpt-4, prix: 2.0}]` the displayed total cost is exactly 2
while the per-model table reports 5 for the excluded model and 2 for gpt-4;
in general, whenever aggregation succeeds the displayed total sums only
non-excluded numeric costs while every per-model accumulator (the excluded
model's included) receives its model's full cost. -/
theorem c7_cost_exclusion :
    calculate_total_cost [c7conv] = .ok c7res ∧
    (∀ (convs : List Conversation) (r : CostAcc),
      calculate_total_cost convs = .ok r →
        r.total_cost = displayedCostSpec convs ∧
        ∀ mdl, lookQ r.model_costs mdl = modelCostSpec mdl convs) := by
  constructor
  · with_unfolding_all rfl
  · intro convs r h
    obtain ⟨h1, h2, h3⟩ := costFoldConvs_ok convs ⟨0, 0, [], []⟩ r h
    exact ⟨by simpa using h1, fun mdl => by simpa [lookQ] using h3 mdl⟩

theorem c7_cost_exclusion_witness :
    calculate_total_cost [c7conv] = .ok c7res ∧
    c7res.total_cost = displayedCostSpec [c7conv] ∧
    lookQ c7res.model_costs "gemini-2.0-flash-exp" =
      modelCostSpec "gemini-2.0-flash-exp" [c7conv] :=
  ⟨c7_cost_exclusion.1,
   (c7_cost_exclusion.2 [c7conv] c7res c7_cost_exclusion.1).1,
   (c7_cost_exclusion.2 [c7conv] c7res c7_cost_exclusion.1).2 "gemini-2.0-flash-exp"⟩

/-- Claim C10: the exclusion rule applies only to cost, not to tokens:
whenever aggregation succeeds the global token total is the model-independent
sum of all numeric token counts (`msgAllTokens` ignores the model), and on a
collection whose only message belongs to the excluded model the token total
is that message's tokens even though its cost is excluded from the displayed
total. -/
theorem c10_tokens_not_excluded :
    (∀ (convs : List Conversation) (r : CostAcc),
      calculate_total_cost convs = .ok r → r.total_tokens = allTokensSpec convs) ∧
    calculate_total_cost c10Convs = .ok c10res := by
  constructor
  · intro convs r h
    simpa using (costFoldConvs_ok convs ⟨0, 0, [], []⟩ r h).2.1
  · with_unfolding_all rfl

theorem c10_tokens_witness :
    calculate_total_cost c10Convs = .ok c10res ∧
    c10res.total_tokens = allTokensSpec c10Convs :=
  ⟨c10_tokens_not_excluded.2,
   c10_tokens_not_excluded.1 c10Convs c10res c10_tokens_not_excluded.2⟩

/-! ### Feedback lemmas and claim C1 -/

/-- Each tally step bumps exactly the counter of the message's rating. -/
theorem fStep_counts (t : FTal) (m : Message) :
    (fStep t m).c1 = t.c1 + (if ratingOf m == some 1 then 1 else 0) ∧
    (fStep t m).c2 = t.c2 + (if ratingOf m == some 2 then 1 else 0) ∧
    (fStep t m).c3 = t.c3 + (if ratingOf m == some 3 then 1 else 0) ∧
    (fStep t m).c4 = t.c4 + (if ratingOf m == some 4 then 1 else 0) ∧
    (fStep t m).c5 = t.c5 + (if ratingOf m == some 5 then 1 else 0) := by
  rcases h : ratingOf m with _ | n
  · simp [fStep, h]
  · rcases n with _ | _ | _ | _ | _ | _ | k <;> simp [fStep, h]

/-- Folding the tally over a message list counts each rating. -/
theorem foldl_fStep (msgs : List Message) :
    ∀ t : FTal,
      msgs.foldl fStep t =
        ⟨t.c1 + msgs.countP (fun m => ratingOf m == some 1),
         t.c2 + msgs.countP (fun m => ratingOf m == some 2),
         t.c3 + msgs.countP (fun m => ratingOf m == some 3),
         t.c4 + msgs.countP (fun m => ratingOf m == some 4),
         t.c5 + msgs.countP (fun m => ratingOf m == some 5)⟩ := by
  induction msgs with
  | nil => intro t; simp
  | cons m rest ih =>
    intro t
    simp only [List.foldl_cons]
    rw [ih]
    obtain ⟨h1, h2, h3, h4, h5⟩ := fStep_counts t m
    simp only [h1, h2, h3, h4, h5, List.countP_cons, FTal.mk.injEq]
    refine ⟨by omega, by omega, by omega, by omega, by omega⟩

/-- Claim C1 (spec-modelled: no feedback aggregator exists under src/; the
aggregator is modelled from §4.7): over every input collection and filter
criteria the aggregation equals the declaratively-specified distribution —
it counts exactly the messages with a non-blank question, a `rating_1`..
`rating_5` feedback (other suffixes ignored) and passing the §4.3 role/email
filtering, and reports per-rating counts, total, mean = Σ(rating×count)/total
and satisfaction = (count4+count5)/total×100, or "no feedback" on a zero
total; in particular the distribution {1:0, 2:0, 3:1, 4:2, 5:1} yields mean
4 and satisfaction 75%. -/
theorem c1_feedback_aggregation :
    (∀ (convs : List Conversation) (uf : UserFilter) (se ep : String),
      aggregate_feedback convs uf se ep = feedbackSpecResult convs uf se ep) ∧
    aggregate_feedback c1Convs .tousLesUtilisateurs "" "" =
      .dist 0 0 1 2 1 4 4 75 := by
  constructor
  · intro convs uf se ep
    unfold aggregate_feedback feedbackSpecResult feedbackSpecCount
    simp only [foldl_fStep, List.countP_filter, Nat.zero_add]
  · with_unfolding_all rfl
